import Mathlib

/-!
Shallow embedding of `babyai/levels/verifier2.py`: the baby-language
instruction grammar and its verifier.  Python classes become structures,
mutable attributes become explicit state threading, `assert` in a
constructor becomes an `Option`-returning smart constructor, and a call
that raises (`NotImplementedError`, a failed `assert` inside a method)
returns `none`.  Python string `is` comparisons on interned literals are
modelled as string equality, and object reference identity (`is` between
world objects) is modelled by a numeric object identity `oid` that the
heap guarantees unique per allocation.
-/

/-- Object types we are allowed to describe in language (`OBJ_TYPES`). -/
def OBJ_TYPES : List String := ["box", "ball", "key", "door"]

/-- Relative locations (`LOC_NAMES`), all relative to the agent's starting position. -/
def LOC_NAMES : List String := ["left", "right", "front", "behind"]

/-- Color names from `gym_minigrid.minigrid.COLOR_NAMES` (sorted keys of `COLORS`). -/
def COLOR_NAMES : List String := ["blue", "green", "grey", "purple", "red", "yellow"]

/-- Direction vectors from `gym_minigrid.minigrid.DIR_TO_VEC`: right, down, left, up. -/
def DIR_TO_VEC : List (Int × Int) := [(1, 0), (0, 1), (-1, 0), (0, -1)]

/-- Compute the dot product of the vectors v1 and v2 (`dot_product`). -/
def dot_product (v1 v2 : Int × Int) : Int :=
  v1.1 * v2.1 + v1.2 * v2.2

/-- A world object (a grid cell's occupant).  `oid` models the Python
object's identity (its address): two objects returned by distinct
allocations have distinct `oid`, even when type and color coincide. -/
structure WorldObj where
  oid : Nat
  type : String
  color : String
deriving DecidableEq

/-- The world grid: `get i j` is `env.grid.get(i, j)`, `none` for an empty cell. -/
structure Grid where
  width : Nat
  height : Nat
  get : Nat → Nat → Option WorldObj

/-- The environment as seen by the verifier.  `start_pos`/`start_dir` are the
episode-start reference frame, `front_pos` the cell the agent currently
faces, `carrying` the currently carried object (a reference; its `oid`
is the identity), and `is_open` the current open flag of the object with
a given `oid` (door state is mutable on the shared heap object, so it is
modelled as per-identity current state rather than a frozen field). -/
structure Env where
  grid : Grid
  start_pos : Int × Int
  start_dir : Nat
  front_pos : Int × Int
  carrying : Option WorldObj
  is_open : Nat → Bool

/-- Description of an object (`ObjDesc`): fields plus the cached match
lists `obj_set` / `obj_poss` that `find_matching_objs` rebuilds. -/
structure ObjDesc where
  color : Option String
  type : String
  loc : Option String
  obj_set : List WorldObj
  obj_poss : List (Nat × Nat)
deriving DecidableEq

/-- The constructor `ObjDesc.__init__`: replaces `locked_door` by `door`,
then asserts membership of type, color and loc in the fixed enumerations
(a failed assert is `none`). -/
def ObjDesc.init (ty : String) (color : Option String) (loc : Option String) :
    Option ObjDesc :=
  let ty := if ty = "locked_door" then "door" else ty
  if OBJ_TYPES.contains ty
      && (match color with | none => true | some c => COLOR_NAMES.contains c)
      && (match loc with | none => true | some l => LOC_NAMES.contains l) then
    some { color := color, type := ty, loc := loc, obj_set := [], obj_poss := [] }
  else
    none

/-- Normalization applied to a scanned cell's type inside
`find_matching_objs`: a `locked_door` cell is reported as a `door`. -/
def normCellType (t : String) : String :=
  if t = "locked_door" then "door" else t

/-- The color filter of `find_matching_objs`: `self.color != None and
cell.color != self.color` rejects, so acceptance is this check. -/
def colorOk (d : ObjDesc) (cell : WorldObj) : Bool :=
  match d.color with
  | none => true
  | some c => cell.color == c

/-- The direction vector `v` from the agent's start position to cell (i, j). -/
def startVecTo (env : Env) (i j : Nat) : Int × Int :=
  ((i : Int) - env.start_pos.1, (j : Int) - env.start_pos.2)

/-- The basis vector `d1 = DIR_TO_VEC[env.start_dir]`. -/
def startD1 (env : Env) : Int × Int :=
  DIR_TO_VEC.getD env.start_dir (1, 0)

/-- The basis vector `d2 = (-d1.y, d1.x)`. -/
def startD2 (env : Env) : Int × Int :=
  (-(startD1 env).2, (startD1 env).1)

/-- The location predicate dictionary of `find_matching_objs`, indexed at
`self.loc`; `d2 = (-d1.y, d1.x)` is the perpendicular of the start
facing vector `d1`. -/
def pos_matches (l : String) (v d1 : Int × Int) : Bool :=
  let d2 : Int × Int := (-d1.2, d1.1)
  if l = "left" then decide (dot_product v d2 < 0)
  else if l = "right" then decide (dot_product v d2 > 0)
  else if l = "front" then decide (dot_product v d1 > 0)
  else decide (dot_product v d1 < 0)

/-- The per-cell acceptance test of `find_matching_objs` (the body of the
double loop, for an occupied cell): type filter, color filter, and—when
`self.loc` is one of the four location names—the relative-location
check against the episode-start frame. -/
def matchesCell (d : ObjDesc) (env : Env) (i j : Nat) (cell : WorldObj) : Bool :=
  (normCellType cell.type == d.type)
  && colorOk d cell
  && (match d.loc with
      | none => true
      | some l =>
          if LOC_NAMES.contains l then
            pos_matches l (startVecTo env i j) (startD1 env)
          else true)

/-- The scan order of `find_matching_objs`: `i` over the width (outer),
`j` over the height (inner). -/
def scanCells (env : Env) : List (Nat × Nat) :=
  (List.range env.grid.width).flatMap fun i =>
    (List.range env.grid.height).map fun j => (i, j)

/-- One loop iteration of `find_matching_objs`: `none` when the cell is
empty or filtered out, otherwise the appended (object, position) pair. -/
def hitAt (d : ObjDesc) (env : Env) (p : Nat × Nat) : Option (WorldObj × (Nat × Nat)) :=
  match env.grid.get p.1 p.2 with
  | none => none
  | some cell => if matchesCell d env p.1 p.2 cell then some (cell, p) else none

/-- `ObjDesc.find_matching_objs`: rebuilds `obj_set` and `obj_poss` from
scratch by scanning the full grid, and returns both lists. -/
def find_matching_objs (d : ObjDesc) (env : Env) : List WorldObj × List (Nat × Nat) :=
  let hits := (scanCells env).filterMap (hitAt d env)
  (hits.map Prod.fst, hits.map Prod.snd)

/-- The state update performed by `find_matching_objs`: the descriptor with
its caches replaced by the fresh scan results. -/
def ObjDesc.resolveInto (d : ObjDesc) (env : Env) : ObjDesc :=
  { d with
    obj_set := (find_matching_objs d env).1
    obj_poss := (find_matching_objs d env).2 }

/-- The location phrase appended by `ObjDesc.surface` when `self.loc` is set. -/
def locPhrase (s : String) (l : String) : String :=
  if l = "front" then s ++ " in front of you"
  else if l = "behind" then s ++ " behind you"
  else s ++ " on your " ++ l

/-- `ObjDesc.surface`: re-resolves, asserts at least one match (a failed
assert is `none`), and renders color, type, location phrase and the
`a`/`the` prefix chosen by the number of matches. -/
def ObjDesc.surface (d : ObjDesc) (env : Env) : Option String :=
  let objs := (find_matching_objs d env).1
  if objs.length > 0 then
    let s := d.type
    let s := match d.color with | none => s | some c => c ++ " " ++ s
    let s := match d.loc with | none => s | some l => locPhrase s l
    some (if objs.length > 1 then "a " ++ s else "the " ++ s)
  else
    none

/-- `Instr.verify` in the base class raises `NotImplementedError`;
modelled as `none`.  Subclasses that do not override `verify` dispatch
here. -/
def Instr.verify (env : Env) (action : Nat) : Option String := none

/-- The `Open` action: holds one descriptor; the constructor asserts the
descriptor type is `door`. -/
structure OpenInstr where
  desc : ObjDesc
deriving DecidableEq

/-- `Open.__init__`: `assert obj_desc.type is 'door'` (interned-literal
identity, i.e. string equality). -/
def OpenInstr.init (d : ObjDesc) : Option OpenInstr :=
  if d.type = "door" then some ⟨d⟩ else none

/-- `Open.reset_verifier`: resolve the descriptor against the bind-time world. -/
def OpenInstr.reset_verifier (o : OpenInstr) (env : Env) : OpenInstr :=
  ⟨o.desc.resolveInto env⟩

/-- `Open.verify`: success as soon as some door in the cached match set is
currently open, otherwise continue. -/
def OpenInstr.verify (o : OpenInstr) (env : Env) (action : Nat) : Option String :=
  if o.desc.obj_set.any (fun door => env.is_open door.oid) then some "success"
  else some "continue"

/-- The `GoTo` action: holds one descriptor, no constructor constraint. -/
structure GoToInstr where
  desc : ObjDesc
deriving DecidableEq

/-- `GoTo.reset_verifier`: resolve the descriptor against the bind-time world. -/
def GoToInstr.reset_verifier (g : GoToInstr) (env : Env) : GoToInstr :=
  ⟨g.desc.resolveInto env⟩

/-- `np.array_equal(pos, env.front_pos)` between a cached (Nat) grid
position and the current front position. -/
def posEqFront (p : Nat × Nat) (q : Int × Int) : Bool :=
  ((p.1 : Int) == q.1) && ((p.2 : Int) == q.2)

/-- `GoTo.verify`: success iff the agent is next to and facing one of the
cached matched positions. -/
def GoToInstr.verify (g : GoToInstr) (env : Env) (action : Nat) : Option String :=
  if g.desc.obj_poss.any (fun p => posEqFront p env.front_pos) then some "success"
  else some "continue"

/-- The `Pickup` action: holds one descriptor; the constructor asserts the
descriptor type is not `door`. -/
structure PickupInstr where
  desc : ObjDesc
deriving DecidableEq

/-- `Pickup.__init__`: `assert obj_desc.type is not 'door'`. -/
def PickupInstr.init (d : ObjDesc) : Option PickupInstr :=
  if d.type = "door" then none else some ⟨d⟩

/-- `Pickup.reset_verifier`: resolve the descriptor against the bind-time world. -/
def PickupInstr.reset_verifier (p : PickupInstr) (env : Env) : PickupInstr :=
  ⟨p.desc.resolveInto env⟩

/-- Python `env.carrying is obj`: reference identity between the carried
object (when any) and a match-set entry, i.e. identical `oid`. -/
def carryingIs (c : Option WorldObj) (o : WorldObj) : Bool :=
  match c with
  | none => false
  | some x => x.oid == o.oid

/-- `Pickup.verify`: success iff the carried reference is identical to one
of the cached matched objects. -/
def PickupInstr.verify (p : PickupInstr) (env : Env) (action : Nat) : Option String :=
  if p.desc.obj_set.any (fun o => carryingIs env.carrying o) then some "success"
  else some "continue"

/-- The `PutNext` action: a move descriptor and a fixed descriptor; the
constructor asserts the move descriptor's type is not `door`.  The class
body defines nothing else — in particular no `verify`. -/
structure PutNextInstr where
  desc_move : ObjDesc
  desc_fixed : ObjDesc
deriving DecidableEq

/-- `PutNext.__init__`: `assert obj_move.type is not 'door'`. -/
def PutNextInstr.init (m f : ObjDesc) : Option PutNextInstr :=
  if m.type = "door" then none else some ⟨m, f⟩

/-- `PutNext` does not override `verify`; a call dispatches to the base
`Instr.verify`, which raises `NotImplementedError`. -/
def PutNextInstr.verify (p : PutNextInstr) (env : Env) (action : Nat) : Option String :=
  Instr.verify env action

/-- The `Both` class as written: `__init__(self): pass` — it accepts no
sub-instructions and stores nothing. -/
structure BothInstr : Type

/-- `Both` does not override `verify`; a call dispatches to the base
`Instr.verify`, which raises `NotImplementedError`. -/
def BothInstr.verify (b : BothInstr) (env : Env) (action : Nat) : Option String :=
  Instr.verify env action

/-- A leaf instruction, i.e. an instance of an `Action` subclass. -/
inductive ActionInstr where
  | goto : GoToInstr → ActionInstr
  | pickup : PickupInstr → ActionInstr
  | opn : OpenInstr → ActionInstr
  | putnext : PutNextInstr → ActionInstr

/-- An operand accepted by `Then.__init__` / `After.__init__`: the asserts
`isinstance(x, Action) or isinstance(x, Both)` are modelled by this sum. -/
inductive Operand where
  | act : ActionInstr → Operand
  | both : BothInstr → Operand

/-- The `Then` composite: two operands, each an `Action` or a `Both`. -/
structure ThenInstr where
  instr_a : Operand
  instr_b : Operand

/-- `Then.verify`: both branches are `TODO` in the source; it returns
`continue` unconditionally. -/
def ThenInstr.verify (t : ThenInstr) (env : Env) (action : Nat) : Option String :=
  some "continue"

/-- The `After` composite: two operands, each an `Action` or a `Both`. -/
structure AfterInstr where
  instr_a : Operand
  instr_b : Operand

/-- `After` does not override `verify`; a call dispatches to the base
`Instr.verify`, which raises `NotImplementedError`. -/
def AfterInstr.verify (a : AfterInstr) (env : Env) (action : Nat) : Option String :=
  Instr.verify env action

/-- The optional color part of the specification's rendering template
"[color ]type[ location-phrase]". -/
def specColorPart : Option String → String
  | none => ""
  | some c => c ++ " "

/-- The location phrase table of the specification: front → "in front of
you", behind → "behind you", left/right → "on your left"/"on your
right", nothing when unset. -/
def specLocPhrase : Option String → String
  | some "front" => " in front of you"
  | some "behind" => " behind you"
  | some "left" => " on your left"
  | some "right" => " on your right"
  | _ => ""

/-- Renderer written from the specification's words, for comparison with
the source's `ObjDesc.surface`: fail on zero matches, otherwise
`[color ]type[ location-phrase]` with `the` for exactly one match and
`a` for more than one. -/
def surfaceSpec (d : ObjDesc) (env : Env) : Option String :=
  let n := (find_matching_objs d env).1.length
  if n = 0 then none
  else
    some ((if n = 1 then "the " else "a ")
      ++ (specColorPart d.color ++ d.type ++ specLocPhrase d.loc))

/-! Concrete worlds used to instantiate the theorems below.  `envEx1` is
the 5×5 world of the specification's end-to-end example: agent starts at
(2,2) facing east (direction 0), a red door at (4,2). -/

/-- A red door with object identity 0. -/
def doorEx : WorldObj := ⟨0, "door", "red"⟩

/-- A red ball with object identity 1. -/
def ballEx : WorldObj := ⟨1, "ball", "red"⟩

/-- A second red ball, structurally equal to `ballEx` up to identity. -/
def ballEx2 : WorldObj := ⟨2, "ball", "red"⟩

/-- A blue box with object identity 3. -/
def boxEx : WorldObj := ⟨3, "box", "blue"⟩

/-- A 5×5 grid holding only the red door at (4,2). -/
def gridEx1 : Grid :=
  ⟨5, 5, fun i j => if i == 4 && j == 2 then some doorEx else none⟩

/-- The episode-start world of the end-to-end example: start (2,2), facing
east, front cell (3,2), carrying nothing, every door closed. -/
def envEx1 : Env := ⟨gridEx1, (2, 2), 0, (3, 2), none, fun _ => false⟩

/-- A 5×5 grid with the red door at (4,2), a red ball at (1,2) and a blue
box at (1,0). -/
def gridEx2 : Grid :=
  ⟨5, 5, fun i j =>
    if i == 4 && j == 2 then some doorEx
    else if i == 1 && j == 2 then some ballEx
    else if i == 1 && j == 0 then some boxEx
    else none⟩

/-- Start (2,2) facing east over `gridEx2`, carrying nothing, doors closed. -/
def envEx2 : Env := ⟨gridEx2, (2, 2), 0, (3, 2), none, fun _ => false⟩

/-- A freshly constructed descriptor for "the red door". -/
def descDoorRed : ObjDesc := ⟨some "red", "door", none, [], []⟩

/-- A freshly constructed descriptor for "the red ball". -/
def descBallRed : ObjDesc := ⟨some "red", "ball", none, [], []⟩

/-- A freshly constructed descriptor for "the blue box on your left". -/
def descBoxBlueLeft : ObjDesc := ⟨some "blue", "box", some "left", [], []⟩

/-! Characterization of the full-grid scan, shared by the claim theorems. -/

theorem mem_scanCells (env : Env) (p : Nat × Nat) :
    p ∈ scanCells env ↔ p.1 < env.grid.width ∧ p.2 < env.grid.height := by
  cases p with
  | mk i j =>
    simp only [scanCells, List.mem_flatMap, List.mem_map, List.mem_range, Prod.mk.injEq]
    constructor
    · rintro ⟨a, ha, b, hb, rfl, rfl⟩
      exact ⟨ha, hb⟩
    · rintro ⟨hi, hj⟩
      exact ⟨i, hi, j, hj, rfl, rfl⟩

theorem hitAt_eq_some (d : ObjDesc) (env : Env) (p : Nat × Nat)
    (x : WorldObj × (Nat × Nat)) :
    hitAt d env p = some x ↔
      env.grid.get p.1 p.2 = some x.1 ∧ matchesCell d env p.1 p.2 x.1 = true ∧ x.2 = p := by
  unfold hitAt
  cases hg : env.grid.get p.1 p.2 with
  | none => simp
  | some cell =>
    by_cases hm : matchesCell d env p.1 p.2 cell = true
    · simp only [hm, if_true]
      constructor
      · rintro h
        cases h
        exact ⟨rfl, hm, rfl⟩
      · rintro ⟨h1, h2, h3⟩
        cases x with
        | mk x1 x2 =>
          simp only at h1 h3
          cases h1
          cases h3
          rfl
    · dsimp only
      rw [if_neg hm]
      constructor
      · intro h
        exact Option.noConfusion h
      · rintro ⟨h1, h2, h3⟩
        injection h1 with h1
        rw [h1] at hm
        exact absurd h2 hm

theorem mem_find_poss (d : ObjDesc) (env : Env) (i j : Nat) :
    (i, j) ∈ (find_matching_objs d env).2 ↔
      i < env.grid.width ∧ j < env.grid.height ∧
        ∃ cell, env.grid.get i j = some cell ∧ matchesCell d env i j cell = true := by
  unfold find_matching_objs
  simp only [List.mem_map, List.mem_filterMap]
  constructor
  · rintro ⟨x, ⟨p, hp, hx⟩, hsnd⟩
    rw [hitAt_eq_some] at hx
    obtain ⟨h1, h2, h3⟩ := hx
    rw [h3] at hsnd
    subst hsnd
    obtain ⟨hw, hh⟩ := (mem_scanCells env (i, j)).mp hp
    exact ⟨hw, hh, x.1, h1, h2⟩
  · rintro ⟨hw, hh, cell, hg, hm⟩
    refine ⟨(cell, (i, j)), ⟨(i, j), ?_, ?_⟩, rfl⟩
    · exact (mem_scanCells env (i, j)).mpr ⟨hw, hh⟩
    · exact (hitAt_eq_some d env (i, j) (cell, (i, j))).mpr ⟨hg, hm, rfl⟩

theorem mem_find_poss_cell (d : ObjDesc) (env : Env) (i j : Nat) (cell : WorldObj)
    (hw : i < env.grid.width) (hh : j < env.grid.height)
    (hg : env.grid.get i j = some cell) :
    (i, j) ∈ (find_matching_objs d env).2 ↔ matchesCell d env i j cell = true := by
  rw [mem_find_poss]
  constructor
  · rintro ⟨_, _, cell', hg', hm'⟩
    rw [hg] at hg'
    cases hg'
    exact hm'
  · intro hm
    exact ⟨hw, hh, cell, hg, hm⟩

theorem matchesCell_loc (d : ObjDesc) (env : Env) (i j : Nat) (cell : WorldObj)
    (l : String) (hl : LOC_NAMES.contains l = true)
    (hty : normCellType cell.type = d.type) (hcol : colorOk d cell = true) :
    matchesCell { d with loc := some l } env i j cell =
      pos_matches l (startVecTo env i j) (startD1 env) := by
  have hty' : (normCellType cell.type == d.type) = true := by
    rw [hty, beq_self_eq_true]
  have hcol' : colorOk { d with loc := some l } cell = colorOk d cell := rfl
  simp only [matchesCell, hty', hcol', hcol, Bool.true_and, Bool.and_true]
  rw [hl]
  rfl

theorem pos_matches_left (v d1 : Int × Int) :
    pos_matches "left" v d1 = decide (dot_product v (-d1.2, d1.1) < 0) := rfl

theorem pos_matches_right (v d1 : Int × Int) :
    pos_matches "right" v d1 = decide (dot_product v (-d1.2, d1.1) > 0) := rfl

theorem pos_matches_front (v d1 : Int × Int) :
    pos_matches "front" v d1 = decide (dot_product v d1 > 0) := rfl

theorem pos_matches_behind (v d1 : Int × Int) :
    pos_matches "behind" v d1 = decide (dot_product v d1 < 0) := rfl

/-- C3: for every descriptor with a relative location set, resolution
accepts an occupied, type- and color-matching cell exactly according to
the strict dot-product sign tests against the episode-start frame
(left ⇔ dot(v,d2) < 0, right ⇔ dot(v,d2) > 0, front ⇔ dot(v,d1) > 0,
behind ⇔ dot(v,d1) < 0); a cell off an axis matches exactly one of the
two sides of that axis, and a cell with zero projection on an axis
matches neither side. -/
theorem relative_location_resolution (env : Env) (d : ObjDesc) (i j : Nat)
    (cell : WorldObj)
    (hw : i < env.grid.width) (hh : j < env.grid.height)
    (hg : env.grid.get i j = some cell)
    (hty : normCellType cell.type = d.type) (hcol : colorOk d cell = true) :
    ((i, j) ∈ (find_matching_objs { d with loc := some "left" } env).2 ↔
        dot_product (startVecTo env i j) (startD2 env) < 0)
    ∧ ((i, j) ∈ (find_matching_objs { d with loc := some "right" } env).2 ↔
        dot_product (startVecTo env i j) (startD2 env) > 0)
    ∧ ((i, j) ∈ (find_matching_objs { d with loc := some "front" } env).2 ↔
        dot_product (startVecTo env i j) (startD1 env) > 0)
    ∧ ((i, j) ∈ (find_matching_objs { d with loc := some "behind" } env).2 ↔
        dot_product (startVecTo env i j) (startD1 env) < 0)
    ∧ (dot_product (startVecTo env i j) (startD2 env) ≠ 0 →
        (((i, j) ∈ (find_matching_objs { d with loc := some "left" } env).2) ↔
          ¬ ((i, j) ∈ (find_matching_objs { d with loc := some "right" } env).2)))
    ∧ (dot_product (startVecTo env i j) (startD1 env) ≠ 0 →
        (((i, j) ∈ (find_matching_objs { d with loc := some "front" } env).2) ↔
          ¬ ((i, j) ∈ (find_matching_objs { d with loc := some "behind" } env).2)))
    ∧ (dot_product (startVecTo env i j) (startD2 env) = 0 →
        ¬ ((i, j) ∈ (find_matching_objs { d with loc := some "left" } env).2) ∧
        ¬ ((i, j) ∈ (find_matching_objs { d with loc := some "right" } env).2))
    ∧ (dot_product (startVecTo env i j) (startD1 env) = 0 →
        ¬ ((i, j) ∈ (find_matching_objs { d with loc := some "front" } env).2) ∧
        ¬ ((i, j) ∈ (find_matching_objs { d with loc := some "behind" } env).2)) := by
  have key : ∀ l : String, LOC_NAMES.contains l = true →
      ((i, j) ∈ (find_matching_objs { d with loc := some l } env).2 ↔
        pos_matches l (startVecTo env i j) (startD1 env) = true) := by
    intro l hl
    rw [mem_find_poss_cell _ env i j cell hw hh hg,
        matchesCell_loc d env i j cell l hl hty hcol]
  have hleft := key "left" (by decide)
  have hright := key "right" (by decide)
  have hfront := key "front" (by decide)
  have hbehind := key "behind" (by decide)
  rw [pos_matches_left, decide_eq_true_eq] at hleft
  rw [pos_matches_right, decide_eq_true_eq] at hright
  rw [pos_matches_front, decide_eq_true_eq] at hfront
  rw [pos_matches_behind, decide_eq_true_eq] at hbehind
  have hd2 : ((-(startD1 env).2, (startD1 env).1) : Int × Int) = startD2 env := rfl
  rw [hd2] at hleft hright
  refine ⟨hleft, hright, hfront, hbehind, ?_, ?_, ?_, ?_⟩
  · intro hne
    rw [hleft, hright]
    omega
  · intro hne
    rw [hfront, hbehind]
    omega
  · intro hz
    rw [hleft, hright]
    omega
  · intro hz
    rw [hfront, hbehind]
    omega

/-- Witness for C3, on the end-to-end example world: the red door at (4,2)
seen from start (2,2) facing east has v = (2,0), so projection on d1 is
positive (in front) and projection on d2 is zero (neither left nor
right). -/
theorem relative_location_resolution_witness :
    ((4, 2) ∈ (find_matching_objs
        { color := some "red", type := "door", loc := some "front",
          obj_set := [], obj_poss := [] } envEx1).2)
    ∧ ¬ ((4, 2) ∈ (find_matching_objs
        { color := some "red", type := "door", loc := some "left",
          obj_set := [], obj_poss := [] } envEx1).2)
    ∧ ¬ ((4, 2) ∈ (find_matching_objs
        { color := some "red", type := "door", loc := some "right",
          obj_set := [], obj_poss := [] } envEx1).2) := by
  have h := relative_location_resolution envEx1
      { color := some "red", type := "door", loc := none, obj_set := [], obj_poss := [] }
      4 2 doorEx (by decide) (by decide) (by decide) (by decide) (by decide)
  refine ⟨h.2.2.1.mpr (by decide), ?_, ?_⟩
  · exact (h.2.2.2.2.2.2.1 (by decide)).1
  · exact (h.2.2.2.2.2.2.1 (by decide)).2

/-! Characterization of the leaf `verify` methods. -/

theorem if_verdict_char (b : Bool) :
    ((if b then (some "success" : Option String) else some "continue") = some "success"
      ↔ b = true)
    ∧ ((if b then (some "success" : Option String) else some "continue") = some "success"
      ∨ (if b then (some "success" : Option String) else some "continue") = some "continue") := by
  cases b <;> decide

theorem posEqFront_eq_true (p : Nat × Nat) (q : Int × Int) :
    posEqFront p q = true ↔ ((p.1 : Int), (p.2 : Int)) = q := by
  simp [posEqFront, Prod.ext_iff]

theorem carryingIs_eq_true (c : Option WorldObj) (o : WorldObj) :
    carryingIs c o = true ↔ ∃ x, c = some x ∧ x.oid = o.oid := by
  cases c with
  | none => simp [carryingIs]
  | some x => simp [carryingIs]

theorem goto_verify_char (g : GoToInstr) (env : Env) (a : Nat) :
    (g.verify env a = some "success" ↔
      ∃ p ∈ g.desc.obj_poss, ((p.1 : Int), (p.2 : Int)) = env.front_pos)
    ∧ (g.verify env a = some "success" ∨ g.verify env a = some "continue") := by
  have h := if_verdict_char (g.desc.obj_poss.any (fun p => posEqFront p env.front_pos))
  unfold GoToInstr.verify
  refine ⟨h.1.trans ?_, h.2⟩
  rw [List.any_eq_true]
  constructor
  · rintro ⟨p, hp, hpe⟩
    exact ⟨p, hp, (posEqFront_eq_true p env.front_pos).mp hpe⟩
  · rintro ⟨p, hp, hpe⟩
    exact ⟨p, hp, (posEqFront_eq_true p env.front_pos).mpr hpe⟩

theorem pickup_verify_char (p : PickupInstr) (env : Env) (a : Nat) :
    (p.verify env a = some "success" ↔
      ∃ o ∈ p.desc.obj_set, ∃ c, env.carrying = some c ∧ c.oid = o.oid)
    ∧ (p.verify env a = some "success" ∨ p.verify env a = some "continue") := by
  have h := if_verdict_char (p.desc.obj_set.any (fun o => carryingIs env.carrying o))
  unfold PickupInstr.verify
  refine ⟨h.1.trans ?_, h.2⟩
  rw [List.any_eq_true]
  constructor
  · rintro ⟨o, ho, hco⟩
    exact ⟨o, ho, (carryingIs_eq_true env.carrying o).mp hco⟩
  · rintro ⟨o, ho, hco⟩
    exact ⟨o, ho, (carryingIs_eq_true env.carrying o).mpr hco⟩

theorem open_verify_char (o : OpenInstr) (env : Env) (a : Nat) :
    (o.verify env a = some "success" ↔
      ∃ door ∈ o.desc.obj_set, env.is_open door.oid = true)
    ∧ (o.verify env a = some "success" ∨ o.verify env a = some "continue") := by
  have h := if_verdict_char (o.desc.obj_set.any (fun door => env.is_open door.oid))
  unfold OpenInstr.verify
  exact ⟨h.1.trans List.any_eq_true, h.2⟩

/-- C5: a GoTo instruction bound at `env0` verifies to success exactly when
the current front position equals one of the positions matched at bind
time, and to continue for every other front position. -/
theorem goto_verify_success_iff (d : ObjDesc) (env0 env : Env) (a : Nat) :
    (((GoToInstr.mk d).reset_verifier env0).verify env a = some "success" ↔
      ∃ p ∈ (find_matching_objs d env0).2, ((p.1 : Int), (p.2 : Int)) = env.front_pos)
    ∧ ((¬ ∃ p ∈ (find_matching_objs d env0).2, ((p.1 : Int), (p.2 : Int)) = env.front_pos) →
      ((GoToInstr.mk d).reset_verifier env0).verify env a = some "continue") := by
  have hposs : ((GoToInstr.mk d).reset_verifier env0).desc.obj_poss
      = (find_matching_objs d env0).2 := rfl
  have h := goto_verify_char ((GoToInstr.mk d).reset_verifier env0) env a
  rw [hposs] at h
  refine ⟨h.1, fun hn => ?_⟩
  rcases h.2 with hs | hc
  · exact absurd (h.1.mp hs) hn
  · exact hc

/-- Witness for C5, on the end-to-end example: with the red door matched at
(4,2), a front position of (3,2) — adjacent but not equal — verifies to
continue, and a front position of (4,2) verifies to success. -/
theorem goto_verify_success_iff_witness :
    ((GoToInstr.mk descDoorRed).reset_verifier envEx1).verify envEx1 0
      = some "continue"
    ∧ ((GoToInstr.mk descDoorRed).reset_verifier envEx1).verify
        { envEx1 with front_pos := (4, 2) } 0 = some "success" := by
  constructor
  · exact (goto_verify_success_iff descDoorRed envEx1 envEx1 0).2 (by decide)
  · exact (goto_verify_success_iff descDoorRed
      envEx1 { envEx1 with front_pos := (4, 2) } 0).1.mpr (by decide)

/-- C6: a Pickup instruction bound at `env0` verifies to success exactly
when the carried reference is identical (same object identity, not mere
type/color equality) to an object matched at bind time, and to continue
otherwise — in particular whenever the carried object's identity differs
from every matched object's. -/
theorem pickup_verify_identity (d : ObjDesc) (env0 env : Env) (a : Nat) :
    (((PickupInstr.mk d).reset_verifier env0).verify env a = some "success" ↔
      ∃ o ∈ (find_matching_objs d env0).1, ∃ c, env.carrying = some c ∧ c.oid = o.oid)
    ∧ (((PickupInstr.mk d).reset_verifier env0).verify env a = some "success"
      ∨ ((PickupInstr.mk d).reset_verifier env0).verify env a = some "continue")
    ∧ (∀ c, env.carrying = some c →
      (∀ o ∈ (find_matching_objs d env0).1, c.oid ≠ o.oid) →
      ((PickupInstr.mk d).reset_verifier env0).verify env a = some "continue") := by
  have hset : ((PickupInstr.mk d).reset_verifier env0).desc.obj_set
      = (find_matching_objs d env0).1 := rfl
  have h := pickup_verify_char ((PickupInstr.mk d).reset_verifier env0) env a
  rw [hset] at h
  refine ⟨h.1, h.2, fun c hc hall => ?_⟩
  rcases h.2 with hs | hcont
  · exfalso
    obtain ⟨o, ho, c', hc', hoid⟩ := h.1.mp hs
    rw [hc] at hc'
    cases hc'
    exact hall o ho hoid
  · exact hcont

/-- Witness for C6: the bind-time match set over `envEx2` for a red ball
is exactly the ball with identity 1; carrying the structurally identical
but distinct red ball (identity 2) verifies to continue, while carrying
the matched ball itself verifies to success. -/
theorem pickup_verify_identity_witness :
    ((PickupInstr.mk descBallRed).reset_verifier envEx2).verify
        { envEx2 with carrying := some ballEx2 } 0 = some "continue"
    ∧ ((PickupInstr.mk descBallRed).reset_verifier envEx2).verify
        { envEx2 with carrying := some ballEx } 0 = some "success"
    ∧ ballEx.type = ballEx2.type ∧ ballEx.color = ballEx2.color
    ∧ ballEx.oid ≠ ballEx2.oid := by
  refine ⟨?_, ?_, by decide, by decide, by decide⟩
  · exact (pickup_verify_identity descBallRed
      envEx2 { envEx2 with carrying := some ballEx2 } 0).2.2 ballEx2 rfl (by decide)
  · refine (pickup_verify_identity descBallRed
      envEx2 { envEx2 with carrying := some ballEx } 0).1.mpr ?_
    exact ⟨ballEx, by decide, ballEx, rfl, rfl⟩

/-- C7: an Open instruction bound at `env0` verifies to success exactly
when some door matched at bind time is currently open, to continue
otherwise; and once it succeeds, it keeps succeeding in any later state
in which every matched door that was open is still open. -/
theorem open_verify_success_iff (d : ObjDesc) (env0 env env' : Env) (a a' : Nat) :
    (((OpenInstr.mk d).reset_verifier env0).verify env a = some "success" ↔
      ∃ door ∈ (find_matching_objs d env0).1, env.is_open door.oid = true)
    ∧ (((OpenInstr.mk d).reset_verifier env0).verify env a = some "success"
      ∨ ((OpenInstr.mk d).reset_verifier env0).verify env a = some "continue")
    ∧ (((OpenInstr.mk d).reset_verifier env0).verify env a = some "success" →
      (∀ o ∈ (find_matching_objs d env0).1,
        env.is_open o.oid = true → env'.is_open o.oid = true) →
      ((OpenInstr.mk d).reset_verifier env0).verify env' a' = some "success") := by
  have hset : ((OpenInstr.mk d).reset_verifier env0).desc.obj_set
      = (find_matching_objs d env0).1 := rfl
  have h := open_verify_char ((OpenInstr.mk d).reset_verifier env0) env a
  have h' := open_verify_char ((OpenInstr.mk d).reset_verifier env0) env' a'
  rw [hset] at h h'
  refine ⟨h.1, h.2, fun hs hmono => ?_⟩
  obtain ⟨door, hdoor, hopen⟩ := h.1.mp hs
  exact h'.1.mpr ⟨door, hdoor, hmono door hdoor hopen⟩

/-- Witness for C7: the red door of the example world, matched at bind
time, gives continue while closed; after the world opens it, verify
returns success, and the monotonicity clause re-yields success for the
unchanged open state. -/
theorem open_verify_success_iff_witness :
    ((OpenInstr.mk descDoorRed).reset_verifier envEx1).verify envEx1 0
      = some "continue"
    ∧ ((OpenInstr.mk descDoorRed).reset_verifier envEx1).verify
        { envEx1 with is_open := fun k => k == 0 } 0 = some "success" := by
  constructor
  · have h := open_verify_success_iff descDoorRed envEx1 envEx1 envEx1 0 0
    rcases h.2.1 with hs | hc
    · exact absurd (h.1.mp hs) (by decide)
    · exact hc
  · exact (open_verify_success_iff descDoorRed
      envEx1 { envEx1 with is_open := fun k => k == 0 }
      { envEx1 with is_open := fun k => k == 0 } 0 0).1.mpr ⟨doorEx, by decide, by decide⟩

/-- C4: for a well-formed descriptor, `surface` fails exactly when the
resolve it triggers produces zero matches, and otherwise renders the
string described by the specification: "[color ]type[ location-phrase]"
prefixed with "the" for exactly one match and "a" for several. -/
theorem locPhrase_front (s : String) : locPhrase s "front" = s ++ " in front of you" := rfl

theorem locPhrase_behind (s : String) : locPhrase s "behind" = s ++ " behind you" := rfl

theorem locPhrase_left (s : String) : locPhrase s "left" = s ++ " on your " ++ "left" := rfl

theorem locPhrase_right (s : String) : locPhrase s "right" = s ++ " on your " ++ "right" := rfl

theorem surface_matches_spec (d : ObjDesc) (env : Env)
    (hloc : d.loc = none ∨ d.loc = some "left" ∨ d.loc = some "right"
      ∨ d.loc = some "front" ∨ d.loc = some "behind") :
    (d.surface env = none ↔ (find_matching_objs d env).1.length = 0)
    ∧ d.surface env = surfaceSpec d env := by
  have hs1 : (match d.color with | none => d.type | some c => c ++ " " ++ d.type)
      = specColorPart d.color ++ d.type := by
    cases d.color with
    | none =>
      show d.type = specColorPart none ++ d.type
      rw [show specColorPart none = "" from rfl, String.empty_append]
    | some c =>
      show c ++ " " ++ d.type = specColorPart (some c) ++ d.type
      rw [show specColorPart (some c) = c ++ " " from rfl]
  have hbody : (match d.loc with
        | none => (match d.color with | none => d.type | some c => c ++ " " ++ d.type)
        | some l =>
            locPhrase (match d.color with | none => d.type | some c => c ++ " " ++ d.type) l)
      = specColorPart d.color ++ d.type ++ specLocPhrase d.loc := by
    rcases hloc with hl | hl | hl | hl | hl <;> rw [hl] <;> dsimp only
    · rw [hs1, show specLocPhrase none = "" from rfl, String.append_empty]
    · rw [locPhrase_left, hs1, show specLocPhrase (some "left") = " on your left" from rfl,
        String.append_assoc]
      rfl
    · rw [locPhrase_right, hs1, show specLocPhrase (some "right") = " on your right" from rfl,
        String.append_assoc]
      rfl
    · rw [locPhrase_front, hs1,
        show specLocPhrase (some "front") = " in front of you" from rfl]
    · rw [locPhrase_behind, hs1, show specLocPhrase (some "behind") = " behind you" from rfl]
  constructor
  · unfold ObjDesc.surface
    dsimp only
    by_cases h0 : (find_matching_objs d env).1.length = 0
    · have hng : ¬ ((find_matching_objs d env).1.length > 0) := by omega
      rw [if_neg hng]
      simp [h0]
    · have hpos : (find_matching_objs d env).1.length > 0 := Nat.pos_of_ne_zero h0
      rw [if_pos hpos]
      constructor
      · intro h
        exact Option.noConfusion h
      · intro h
        exact absurd h h0
  · unfold ObjDesc.surface surfaceSpec
    dsimp only
    by_cases h0 : (find_matching_objs d env).1.length = 0
    · have hng : ¬ ((find_matching_objs d env).1.length > 0) := by omega
      rw [if_neg hng, if_pos h0]
    · have hpos : (find_matching_objs d env).1.length > 0 := Nat.pos_of_ne_zero h0
      rw [if_pos hpos, if_neg h0, hbody]
      by_cases h1 : (find_matching_objs d env).1.length = 1
      · have hgt : ¬ ((find_matching_objs d env).1.length > 1) := by omega
        rw [if_neg hgt, if_pos h1]
      · have hgt : (find_matching_objs d env).1.length > 1 := by omega
        rw [if_pos hgt, if_neg h1]

/-- Witness for C4: the blue box at (1,0) of `envEx2` is on the agent's
left; the descriptor "blue box on your left" matches exactly that box,
so `surface` renders "the blue box on your left", and a descriptor
matching nothing makes `surface` fail. -/
theorem surface_matches_spec_witness :
    descBoxBlueLeft.surface envEx2 = surfaceSpec descBoxBlueLeft envEx2
    ∧ descBoxBlueLeft.surface envEx2 = some "the blue box on your left"
    ∧ descBoxBlueLeft.surface envEx1 = none := by
  refine ⟨(surface_matches_spec descBoxBlueLeft envEx2 (by decide)).2, by decide, ?_⟩
  exact (surface_matches_spec descBoxBlueLeft envEx1 (by decide)).1.mpr (by decide)

theorem init_type_char (ty : String) (c l : Option String) (d : ObjDesc)
    (h : ObjDesc.init ty c l = some d) :
    d.type = if ty = "locked_door" then "door" else ty := by
  unfold ObjDesc.init at h
  dsimp only at h
  by_cases hld : ty = "locked_door"
  · rw [if_pos hld] at h ⊢
    split at h
    · injection h with h
      rw [← h]
    · exact Option.noConfusion h
  · rw [if_neg hld] at h ⊢
    split at h
    · injection h with h
      rw [← h]
    · exact Option.noConfusion h

/-- C8: a descriptor constructed with type "locked_door" stores type
"door" from construction on (the stored field is immutable thereafter);
a descriptor constructed with any other type stores that type unchanged;
and resolution applies the same normalization: a locked-door cell is
filtered exactly as the same cell with type "door". -/
theorem locked_door_normalization :
    (∀ (c l : Option String) (d : ObjDesc),
      ObjDesc.init "locked_door" c l = some d → d.type = "door")
    ∧ (∀ (ty : String) (c l : Option String) (d : ObjDesc),
      ty ≠ "locked_door" → ObjDesc.init ty c l = some d → d.type = ty)
    ∧ (∀ (d : ObjDesc) (env : Env) (i j : Nat) (cell : WorldObj),
      cell.type = "locked_door" →
      matchesCell d env i j cell = matchesCell d env i j { cell with type := "door" }) := by
  refine ⟨?_, ?_, ?_⟩
  · intro c l d h
    exact (init_type_char "locked_door" c l d h).trans (by decide)
  · intro ty c l d hne h
    have hch := init_type_char ty c l d h
    rwa [if_neg hne] at hch
  · intro d env i j cell hct
    unfold matchesCell
    rw [hct]
    rfl

/-- A locked red door sharing no identity with the other examples. -/
def lockedDoorEx : WorldObj := ⟨4, "locked_door", "red"⟩

/-- Witness for C8: constructing with "locked_door" yields the stored type
"door", and the locked red door cell is filtered exactly like its
"door"-typed counterpart. -/
theorem locked_door_normalization_witness :
    descDoorRed.type = "door"
    ∧ matchesCell descDoorRed envEx1 4 2 lockedDoorEx
      = matchesCell descDoorRed envEx1 4 2 { lockedDoorEx with type := "door" } := by
  constructor
  · exact locked_door_normalization.1 (some "red") none descDoorRed (by decide)
  · exact locked_door_normalization.2.2 descDoorRed envEx1 4 2 lockedDoorEx (by decide)

/-- C9: building Open with a non-door descriptor fails at construction, as
does building Pickup with a door descriptor or PutNext with a door
move-descriptor; the compatible types are accepted unchanged; and every
successfully constructed instruction carries a compatible descriptor, so
the incompatibility never reaches verification. -/
theorem construction_type_asserts :
    (∀ d : ObjDesc, d.type ≠ "door" → OpenInstr.init d = none)
    ∧ (∀ d : ObjDesc, d.type = "door" → OpenInstr.init d = some ⟨d⟩)
    ∧ (∀ d : ObjDesc, d.type = "door" → PickupInstr.init d = none)
    ∧ (∀ d : ObjDesc, d.type ≠ "door" → PickupInstr.init d = some ⟨d⟩)
    ∧ (∀ m f : ObjDesc, m.type = "door" → PutNextInstr.init m f = none)
    ∧ (∀ m f : ObjDesc, m.type ≠ "door" → PutNextInstr.init m f = some ⟨m, f⟩)
    ∧ (∀ (d : ObjDesc) (o : OpenInstr), OpenInstr.init d = some o → o.desc.type = "door")
    ∧ (∀ (d : ObjDesc) (p : PickupInstr), PickupInstr.init d = some p → p.desc.type ≠ "door")
    ∧ (∀ (m f : ObjDesc) (p : PutNextInstr),
      PutNextInstr.init m f = some p → p.desc_move.type ≠ "door") := by
  refine ⟨?_, ?_, ?_, ?_, ?_, ?_, ?_, ?_, ?_⟩
  · intro d h
    unfold OpenInstr.init
    rw [if_neg h]
  · intro d h
    unfold OpenInstr.init
    rw [if_pos h]
  · intro d h
    unfold PickupInstr.init
    rw [if_pos h]
  · intro d h
    unfold PickupInstr.init
    rw [if_neg h]
  · intro m f h
    unfold PutNextInstr.init
    rw [if_pos h]
  · intro m f h
    unfold PutNextInstr.init
    rw [if_neg h]
  · intro d o h
    unfold OpenInstr.init at h
    split at h
    · injection h with h
      rw [← h]
      assumption
    · exact Option.noConfusion h
  · intro d p h
    unfold PickupInstr.init at h
    split at h
    · exact Option.noConfusion h
    · injection h with h
      rw [← h]
      assumption
  · intro m f p h
    unfold PutNextInstr.init at h
    split at h
    · exact Option.noConfusion h
    · injection h with h
      rw [← h]
      assumption

/-- Witness for C9, on concrete descriptors: every incompatible pairing is
rejected at construction and every compatible pairing is accepted. -/
theorem construction_type_asserts_witness :
    OpenInstr.init descBallRed = none
    ∧ OpenInstr.init descDoorRed = some ⟨descDoorRed⟩
    ∧ PickupInstr.init descDoorRed = none
    ∧ PickupInstr.init descBallRed = some ⟨descBallRed⟩
    ∧ PutNextInstr.init descDoorRed descBallRed = none
    ∧ PutNextInstr.init descBallRed descDoorRed = some ⟨descBallRed, descDoorRed⟩ := by
  exact ⟨construction_type_asserts.1 descBallRed (by decide),
    construction_type_asserts.2.1 descDoorRed (by decide),
    construction_type_asserts.2.2.1 descDoorRed (by decide),
    construction_type_asserts.2.2.2.1 descBallRed (by decide),
    construction_type_asserts.2.2.2.2.1 descDoorRed descBallRed (by decide),
    construction_type_asserts.2.2.2.2.2.1 descBallRed descDoorRed (by decide)⟩

/-- C10: after a resolution, the cached object and position lists have
equal length and are index-aligned — the i-th position is the occupied
grid cell at which the i-th object was found, a cell passing the
descriptor's filters — and both lists are rebuilt from scratch: the
output is independent of whatever the caches held before the call. -/
theorem find_matching_objs_aligned (d : ObjDesc) (env : Env) :
    ((find_matching_objs d env).1.length = (find_matching_objs d env).2.length)
    ∧ (∀ i : Nat, i < (find_matching_objs d env).1.length →
      env.grid.get ((find_matching_objs d env).2.getD i (0, 0)).1
          ((find_matching_objs d env).2.getD i (0, 0)).2
        = some ((find_matching_objs d env).1.getD i ⟨0, "", ""⟩)
      ∧ matchesCell d env ((find_matching_objs d env).2.getD i (0, 0)).1
          ((find_matching_objs d env).2.getD i (0, 0)).2
          ((find_matching_objs d env).1.getD i ⟨0, "", ""⟩) = true)
    ∧ (∀ (s : List WorldObj) (ps : List (Nat × Nat)),
      find_matching_objs { d with obj_set := s, obj_poss := ps } env
        = find_matching_objs d env) := by
  have h1 : (find_matching_objs d env).1
      = ((scanCells env).filterMap (hitAt d env)).map Prod.fst := rfl
  have h2 : (find_matching_objs d env).2
      = ((scanCells env).filterMap (hitAt d env)).map Prod.snd := rfl
  have hchar : ∀ x ∈ (scanCells env).filterMap (hitAt d env),
      env.grid.get x.2.1 x.2.2 = some x.1 ∧ matchesCell d env x.2.1 x.2.2 x.1 = true := by
    intro x hx
    obtain ⟨p, hp, hpx⟩ := List.mem_filterMap.mp hx
    obtain ⟨hg, hm, hp2⟩ := (hitAt_eq_some d env p x).mp hpx
    subst hp2
    exact ⟨hg, hm⟩
  refine ⟨by rw [h1, h2, List.length_map, List.length_map], ?_, ?_⟩
  · intro i hi
    rw [h1, List.length_map] at hi
    have hi2 : i < (((scanCells env).filterMap (hitAt d env)).map Prod.snd).length := by
      rw [List.length_map]
      exact hi
    have hi1 : i < (((scanCells env).filterMap (hitAt d env)).map Prod.fst).length := by
      rw [List.length_map]
      exact hi
    rw [h1, h2, List.getD_eq_getElem _ _ hi1, List.getD_eq_getElem _ _ hi2,
      List.getElem_map, List.getElem_map]
    exact hchar _ (List.getElem_mem hi)
  · intro s ps
    rfl

/-- Witness for C10: on the example world, both cached lists have the one
matching entry, the position list points at the grid cell holding the
matched object, and pre-polluted caches do not change the result. -/
theorem find_matching_objs_aligned_witness :
    (find_matching_objs descDoorRed envEx1).1.length
      = (find_matching_objs descDoorRed envEx1).2.length
    ∧ envEx1.grid.get ((find_matching_objs descDoorRed envEx1).2.getD 0 (0, 0)).1
        ((find_matching_objs descDoorRed envEx1).2.getD 0 (0, 0)).2
      = some ((find_matching_objs descDoorRed envEx1).1.getD 0 ⟨0, "", ""⟩)
    ∧ find_matching_objs { descDoorRed with obj_set := [ballEx], obj_poss := [(9, 9)] } envEx1
      = find_matching_objs descDoorRed envEx1 :=
  ⟨(find_matching_objs_aligned descDoorRed envEx1).1,
    ((find_matching_objs_aligned descDoorRed envEx1).2.1 0 (by decide)).1,
    (find_matching_objs_aligned descDoorRed envEx1).2.2 [ballEx] [(9, 9)]⟩

/-- An After instruction over two concrete GoTo leaves. -/
def afterEx : AfterInstr :=
  ⟨Operand.act (ActionInstr.goto ⟨descDoorRed⟩), Operand.act (ActionInstr.goto ⟨descBallRed⟩)⟩

/-- Counterexample to C1 as stated: a bound After instruction's verify
call does not return continue — `After` never defines `verify`, so a
call falls through to the base `Instr.verify` and raises
`NotImplementedError` (modelled as `none`). -/
theorem after_verify_not_continue_cex :
    afterEx.verify envEx1 0 ≠ some "continue" := by decide

/-- C1 (amended): a bound Then instruction's verify returns continue on
every call, for every action and world state — its ordering-violation
detection is an unimplemented stub; but After and PutNext do not
implement verify at all: their calls dispatch to the base
`Instr.verify`, which raises `NotImplementedError` (modelled `none`)
instead of returning continue. -/
theorem then_verify_continue_after_putnext_raise :
    (∀ (t : ThenInstr) (env : Env) (a : Nat), t.verify env a = some "continue")
    ∧ (∀ (af : AfterInstr) (env : Env) (a : Nat),
      af.verify env a = Instr.verify env a ∧ af.verify env a = none)
    ∧ (∀ (p : PutNextInstr) (env : Env) (a : Nat),
      p.verify env a = Instr.verify env a ∧ p.verify env a = none) :=
  ⟨fun _ _ _ => rfl, fun _ _ _ => ⟨rfl, rfl⟩, fun _ _ _ => ⟨rfl, rfl⟩⟩

/-- C2 (code evaluation): the Both class as implemented is an empty stub:
its constructor accepts no sub-instructions and stores nothing (all
`BothInstr` values are equal, so no per-child satisfied flags exist),
and its verify never returns success — a call dispatches to the base
`Instr.verify`, which raises `NotImplementedError` (modelled `none`).
This contradicts the documented conjunction semantics of Both(a, b). -/
theorem both_stub_unimplemented :
    (∀ b c : BothInstr, b = c)
    ∧ (∀ (b : BothInstr) (env : Env) (a : Nat),
      b.verify env a = Instr.verify env a ∧ b.verify env a = none) := by
  constructor
  · intro b c
    cases b
    cases c
    rfl
  · intro b env a
    exact ⟨rfl, rfl⟩
